import Mathlib

/-!
Shallow embedding of the powerdns_exporter metric-mapping and collection
engine (powerdns_exporter.go and the metric-definition file).

Modelling conventions:
* Go `float64` statistic values are modelled as `ℚ` (the claims only
  exercise exact decimal values, where float64 arithmetic agrees with ℚ).
* The Go `map[string]float64` statsMap is modelled as an association list
  with last-write-wins insertion, matching how it is built from the JSON
  entry list.  Go `map` literals used as fixed tables (`labelMap`,
  `rTimeBucketMap`) are modelled as association lists in source order;
  every claim proved below is independent of that iteration order.
* The prometheus metric objects emitted on the collect channel are
  modelled by the inductive `Metric`; the three housekeeping metrics carry
  the value the registry observes when it reads them after the cycle
  (i.e. the end-of-cycle state).
* Go `uint64` arithmetic wraps modulo 2^64; the histogram builder's
  `count` and `cumsum` accumulators and the `uint64(v)` conversion are
  therefore reduced modulo `uint64Mod = 2^64` wherever the source uses
  `uint64`.  `uint64(v)` on an in-range non-negative float64 truncates
  toward zero; the conversion of an out-of-range or negative value is
  implementation-defined in Go, and no claim exercises it.
-/

/-- One record of the `servers/localhost/statistics` JSON payload
(`StatsEntry` in powerdns_exporter.go). -/
structure StatsEntry where
  name : String
  kind : String
  value : ℚ
deriving DecidableEq, Repr

/-- The per-cycle lookup table `statsMap : map[string]float64`. -/
abbrev StatsMap := List (String × ℚ)

/-- Map update `m[k] = v` (last write wins). -/
def insertStat (m : StatsMap) (k : String) (v : ℚ) : StatsMap :=
  match m with
  | [] => [(k, v)]
  | (k', v') :: rest => if k' = k then (k, v) :: rest else (k', v') :: insertStat rest k v

/-- Builds the per-cycle lookup table: the loop in collectMetrics that
assigns each entry value to its name in the fresh map. -/
def buildStatsMap (stats : List StatsEntry) : StatsMap :=
  stats.foldl (fun m s => insertStat m s.name s.value) []

/-- Map lookup `value, ok := statsMap[k]`. -/
def lookupStat (m : StatsMap) (k : String) : Option ℚ :=
  match m with
  | [] => none
  | (k', v) :: rest => if k' = k then some v else lookupStat rest k

/-- Structure `gaugeDefinition` from the metric-definition file. -/
structure gaugeDefinition where
  id : Nat
  name : String
  desc : String
  key : String
deriving DecidableEq, Repr

/-- Structure `counterDefinition` from the metric-definition file; the Go
`map[string]string` labelMap is an association list in source order. -/
structure counterDefinition where
  id : Nat
  name : String
  desc : String
  label : String
  labelMap : List (String × String)
deriving DecidableEq, Repr

/-- Table `rTimeBucketMap`: histogram raw key → bucket upper bound in seconds
(0 marks the unbounded `answers-slow` bucket). -/
def rTimeBucketMap : List (String × ℚ) :=
  [("answers0-1", 1/1000),
   ("answers1-10", 1/100),
   ("answers10-100", 1/10),
   ("answers100-1000", 1),
   ("answers-slow", 0)]

/-- Table `rTimeLabelMap` from the metric-definition file. -/
def rTimeLabelMap : List (String × String) :=
  [("answers0-1", "0_1ms"),
   ("answers1-10", "1_10ms"),
   ("answers10-100", "10_100ms"),
   ("answers100-1000", "100_1000ms"),
   ("answers-slow", "over_1000ms")]

/-- Table `rCodeLabelMap` from the metric-definition file. -/
def rCodeLabelMap : List (String × String) :=
  [("servfail-answers", "servfail"),
   ("nxdomain-answers", "nxdomain"),
   ("noerror-answers", "noerror")]

/-- Table `exceptionsLabelMap` from the metric-definition file. -/
def exceptionsLabelMap : List (String × String) :=
  [("resource-limits", "resource_limit"),
   ("over-capacity-drops", "over_capacity_drop"),
   ("unreachables", "ns_unreachable"),
   ("outgoing-timeouts", "outgoing_timeout")]

/-- Table `recursorGaugeDefs` from the metric-definition file. -/
def recursorGaugeDefs : List gaugeDefinition :=
  [⟨1, "latency_average_seconds", "Exponential moving average of question-to-answer latency.", "qa_latency"⟩,
   ⟨2, "concurrent_queries", "Number of concurrent queries.", "concurrent_queries"⟩,
   ⟨3, "cache_size", "Number of entries in the cache.", "cache_entries"⟩]

/-- Table `recursorCounterDefs` from the metric-definition file. -/
def recursorCounterDefs : List counterDefinition :=
  [⟨1, "incoming_queries_total", "Total number of incoming queries by network.", "net",
    [("questions", "udp"), ("tcp-questions", "tcp")]⟩,
   ⟨2, "outgoing_queries_total", "Total number of outgoing queries by network.", "net",
    [("all-outqueries", "udp"), ("tcp-outqueries", "tcp")]⟩,
   ⟨3, "cache_lookups_total", "Total number of cache lookups by result.", "result",
    [("cache-hits", "hit"), ("cache-misses", "miss")]⟩,
   ⟨4, "answers_rcodes_total", "Total number of answers by response code.", "rcode", rCodeLabelMap⟩,
   ⟨5, "answers_rtime_total", "Total number of answers grouped by response time slots.", "timeslot", rTimeLabelMap⟩,
   ⟨6, "exceptions_total", "Total number of exceptions by error.", "error", exceptionsLabelMap⟩]

/-- Table `dnsdistGaugeDefs` from the metric-definition file. -/
def dnsdistGaugeDefs : List gaugeDefinition := []

/-- Table `dnsdistCounterDefs` from the metric-definition file. -/
def dnsdistCounterDefs : List counterDefinition := []

/-- The modulus 2^64 of Go's `uint64`. -/
def uint64Mod : Nat := 18446744073709551616

/-- Go `uint64(v)` on a non-negative float64: truncation toward zero
(computed on the normalized fraction), reduced into `uint64` range.  For
in-range values the reduction is the identity; the out-of-range and
negative cases are implementation-defined in Go and not exercised by any
claim. -/
def toUint64 (v : ℚ) : Nat := v.num.toNat / v.den % uint64Mod

/-- The value carried by a `prometheus.MustNewConstHistogram` metric:
total observation count, sum, and cumulative buckets listed in ascending
threshold order. -/
structure ConstHistogram where
  count : Nat
  sum : ℚ
  buckets : List (ℚ × Nat)
deriving DecidableEq, Repr

/-- First key of `keys` absent from `m` (the loop over `rTimeBucketMap` in
`makeRecursorRTimeHistogram` returns an error at the first absent key). -/
def findMissingKeyIn (m : StatsMap) : List String → Option String
  | [] => none
  | k :: ks => if (lookupStat m k).isNone then some k else findMissingKeyIn m ks

/-- The linear (non-cumulative) buckets map built by
`makeRecursorRTimeHistogram`: one entry per `rTimeBucketMap` pair whose
threshold `v` is nonzero, holding `uint64(statsMap[k])`. -/
def linearBuckets (m : StatsMap) : List (ℚ × Nat) :=
  (rTimeBucketMap.filter (fun p => p.2 != 0)).map
    (fun p => (p.2, toUint64 ((lookupStat m p.1).getD 0)))

/-- Total observation count: the running `count : uint64` accumulated
over all of `rTimeBucketMap`, each addition wrapping modulo 2^64. -/
def histCount (m : StatsMap) : Nat :=
  (rTimeBucketMap.map (fun p => toUint64 ((lookupStat m p.1).getD 0))).foldl
    (fun acc x => (acc + x) % uint64Mod) 0

/-- Insert into an ascending list (helper for `sortFloat64s`). -/
def insertSorted (x : ℚ) : List ℚ → List ℚ
  | [] => [x]
  | y :: ys => if x ≤ y then x :: y :: ys else y :: insertSorted x ys

/-- Model of `sort.Float64s`: sort ascending. -/
def sortFloat64s (l : List ℚ) : List ℚ := l.foldr insertSorted []

/-- Lookup `buckets[k]` in the linear buckets association list. -/
def lookupBucket (bs : List (ℚ × Nat)) (k : ℚ) : Nat :=
  match bs with
  | [] => 0
  | (k', c) :: rest => if k' = k then c else lookupBucket rest k

/-- The cumulative-sum loop: `cumsum += buckets[k]; buckets[k] = cumsum`
over the sorted keys, listed in that order; `cumsum : uint64` wraps
modulo 2^64. -/
def cumulate (bs : List (ℚ × Nat)) : Nat → List ℚ → List (ℚ × Nat)
  | _, [] => []
  | acc, k :: ks =>
    let c := (acc + lookupBucket bs k) % uint64Mod
    (k, c) :: cumulate bs c ks

/-- Function `makeRecursorRTimeHistogram` from the metric-definition file. -/
def makeRecursorRTimeHistogram (statsMap : StatsMap) : Except String ConstHistogram :=
  match findMissingKeyIn statsMap (rTimeBucketMap.map Prod.fst) with
  | some k => .error ("Required PowerDNS stats key not found: " ++ k)
  | none =>
    let bs := linearBuckets statsMap
    let keys := sortFloat64s (bs.map Prod.fst)
    .ok { count := histCount statsMap, sum := 0, buckets := cumulate bs 0 keys }

/-- The mutable fields of `Exporter` observed by a collection cycle:
the `up` gauge, the two exporter counters, and the persistent
per-definition gauge objects (`gaugeMetrics`, keyed by definition id,
holding their current value). -/
structure ExporterState where
  up : ℚ
  totalScrapes : Nat
  jsonParseFailures : Nat
  gaugeValues : List (Nat × ℚ)
deriving DecidableEq, Repr

/-- Write to a persistent gauge object, keyed by definition id. -/
def setGauge (gv : List (Nat × ℚ)) (i : Nat) (v : ℚ) : List (Nat × ℚ) :=
  match gv with
  | [] => [(i, v)]
  | (i', v') :: rest => if i' = i then (i, v) :: rest else (i', v') :: setGauge rest i v

/-- Current value of the persistent gauge object for definition id `i`. -/
def lookupGauge (gv : List (Nat × ℚ)) (i : Nat) : Option ℚ :=
  match gv with
  | [] => none
  | (i', v) :: rest => if i' = i then some v else lookupGauge rest i

/-- A metric delivered on the `Collect` channel.  The three housekeeping
constructors carry the value the registry reads from the shared object at
the end of the cycle; gauge objects are never sent on the channel (they
are only `Set`), counters and the histogram are fresh const metrics. -/
inductive Metric where
  | upMetric (v : ℚ)
  | totalScrapesMetric (v : Nat)
  | jsonParseFailuresMetric (v : Nat)
  | counterMetric (defId : Nat) (label : String) (value : ℚ)
  | histogramMetric (h : ConstHistogram)
deriving DecidableEq, Repr

/-- Is this metric the response-time histogram? -/
def Metric.isHistogram : Metric → Bool
  | .histogramMetric _ => true
  | _ => false

/-- Model of `strings.HasSuffix`. -/
def hasSuffix (s suff : String) : Bool := suff.data.isSuffixOf s.data

/-- One iteration of the gauge loop in `collectMetrics`: on a present key,
convert latency values from microseconds to seconds and `Set` the
persistent gauge; on an absent key, count a JSON parse failure. -/
def processGauge (d : gaugeDefinition) (m : StatsMap) (s : ExporterState) : ExporterState :=
  match lookupStat m d.key with
  | some value =>
    let value := if hasSuffix d.key "latency" then value / 1000000 else value
    { s with gaugeValues := setGauge s.gaugeValues d.id value }
  | none => { s with jsonParseFailures := s.jsonParseFailures + 1 }

/-- The gauge loop of `collectMetrics` over all gauge definitions. -/
def processGauges (defs : List gaugeDefinition) (m : StatsMap) (s : ExporterState) :
    ExporterState :=
  match defs with
  | [] => s
  | d :: rest => processGauges rest m (processGauge d m s)

/-- The inner loop of the counter pass: for each `(rawKey, label)` pair of a
definition's labelMap, emit a const counter metric when the key is present,
otherwise count a JSON parse failure and continue. -/
def processCounterEntries (defId : Nat) (entries : List (String × String)) (m : StatsMap)
    (s : ExporterState) : ExporterState × List Metric :=
  match entries with
  | [] => (s, [])
  | (key, label) :: rest =>
    match lookupStat m key with
    | some v =>
      let r := processCounterEntries defId rest m s
      (r.1, .counterMetric defId label v :: r.2)
    | none =>
      processCounterEntries defId rest m { s with jsonParseFailures := s.jsonParseFailures + 1 }

/-- One counter definition's pass in `collectMetrics`. -/
def processCounterDef (d : counterDefinition) (m : StatsMap) (s : ExporterState) :
    ExporterState × List Metric :=
  processCounterEntries d.id d.labelMap m s

/-- The counter loop of `collectMetrics` over all counter definitions. -/
def processCounters (defs : List counterDefinition) (m : StatsMap) (s : ExporterState) :
    ExporterState × List Metric :=
  match defs with
  | [] => (s, [])
  | d :: rest =>
    let r1 := processCounterDef d m s
    let r2 := processCounters rest m r1.1
    (r2.1, r1.2 ++ r2.2)

/-- Function `collectMetrics` from powerdns_exporter.go: build the statsMap, return
early when it is empty, run the gauge and counter passes, and for the
recursor additionally build and emit the response-time histogram, skipping
it (without touching anything already emitted) when the builder fails. -/
def collectMetrics (serverType : String) (gaugeDefs : List gaugeDefinition)
    (counterDefs : List counterDefinition) (stats : List StatsEntry)
    (s : ExporterState) : ExporterState × List Metric :=
  let statsMap := buildStatsMap stats
  if statsMap.isEmpty then (s, [])
  else
    let s1 := processGauges gaugeDefs statsMap s
    let r := processCounters counterDefs statsMap s1
    if serverType = "recursor" then
      match makeRecursorRTimeHistogram statsMap with
      | .error _ => (r.1, r.2)
      | .ok h => (r.1, r.2 ++ [.histogramMetric h])
    else (r.1, r.2)

/-- Function `scrape` from powerdns_exporter.go.  `fetchResult` is the outcome of
`getJSON` on the statistics endpoint.  Always increments `totalScrapes`;
on failure sets `up = 0`, counts a parse failure and closes the channel
without sending (so `collectMetrics` receives a nil slice, modelled as
`[]`); on success sets `up = 1` and sends the data. -/
def scrape (fetchResult : Except String (List StatsEntry)) (s : ExporterState) :
    ExporterState × List StatsEntry :=
  let s := { s with totalScrapes := s.totalScrapes + 1 }
  match fetchResult with
  | .error _ => ({ s with up := 0, jsonParseFailures := s.jsonParseFailures + 1 }, [])
  | .ok data => ({ s with up := 1 }, data)

/-- Function `Collect` from powerdns_exporter.go: run `scrape`, deliver the three
housekeeping metrics, then run `collectMetrics`.  The housekeeping metric
objects are read by the registry after the cycle finishes, so they carry
the end-of-cycle values. -/
def Collect (serverType : String) (gaugeDefs : List gaugeDefinition)
    (counterDefs : List counterDefinition) (fetchResult : Except String (List StatsEntry))
    (s : ExporterState) : ExporterState × List Metric :=
  let r1 := scrape fetchResult s
  let r2 := collectMetrics serverType gaugeDefs counterDefs r1.2 r1.1
  (r2.1, Metric.upMetric r2.1.up :: Metric.totalScrapesMetric r2.1.totalScrapes ::
         Metric.jsonParseFailuresMetric r2.1.jsonParseFailures :: r2.2)

/-! ### Basic evaluation lemmas -/

theorem toUint64_natCast (n : ℕ) : toUint64 (n : ℚ) = n % uint64Mod := by
  simp [toUint64]

theorem toUint64_lt (v : ℚ) : toUint64 v < uint64Mod :=
  Nat.mod_lt _ (by norm_num [uint64Mod])

theorem lookupGauge_setGauge_self (gv : List (Nat × ℚ)) (i : Nat) (v : ℚ) :
    lookupGauge (setGauge gv i v) i = some v := by
  induction gv with
  | nil => simp [setGauge, lookupGauge]
  | cons p rest ih =>
    obtain ⟨i', v'⟩ := p
    by_cases h : i' = i <;> simp [setGauge, lookupGauge, h, ih]

theorem lookupGauge_setGauge_ne (gv : List (Nat × ℚ)) (i j : Nat) (v : ℚ) (h : i ≠ j) :
    lookupGauge (setGauge gv i v) j = lookupGauge gv j := by
  induction gv with
  | nil => simp [setGauge, lookupGauge, h]
  | cons p rest ih =>
    obtain ⟨i', v'⟩ := p
    by_cases h' : i' = i
    · subst h'
      simp [setGauge, lookupGauge, h]
    · simp [setGauge, lookupGauge, h', ih]

/-- Evaluation of the histogram builder when all five required keys are
present: the cumulative buckets over the ascending finite thresholds and
the total count over all five raw values. -/
theorem makeRecursorRTimeHistogram_eval (m : StatsMap) (q1 q2 q3 q4 q5 : ℚ)
    (h1 : lookupStat m "answers0-1" = some q1)
    (h2 : lookupStat m "answers1-10" = some q2)
    (h3 : lookupStat m "answers10-100" = some q3)
    (h4 : lookupStat m "answers100-1000" = some q4)
    (h5 : lookupStat m "answers-slow" = some q5) :
    makeRecursorRTimeHistogram m =
      .ok { count := (toUint64 q1 + toUint64 q2 + toUint64 q3 + toUint64 q4 + toUint64 q5) %
              uint64Mod,
            sum := 0,
            buckets := [(1/1000, toUint64 q1),
                        (1/100, (toUint64 q1 + toUint64 q2) % uint64Mod),
                        (1/10, (toUint64 q1 + toUint64 q2 + toUint64 q3) % uint64Mod),
                        (1, (toUint64 q1 + toUint64 q2 + toUint64 q3 + toUint64 q4) %
                          uint64Mod)] } := by
  have hfind : findMissingKeyIn m (rTimeBucketMap.map Prod.fst) = none := by
    simp [findMissingKeyIn, rTimeBucketMap, h1, h2, h3, h4, h5]
  have hlin : linearBuckets m =
      [(1/1000, toUint64 q1), (1/100, toUint64 q2), (1/10, toUint64 q3), (1, toUint64 q4)] := by
    norm_num [linearBuckets, rTimeBucketMap, h1, h2, h3, h4, h5]
  have hsort : sortFloat64s [1/1000, 1/100, 1/10, (1:ℚ)] = [1/1000, 1/100, 1/10, (1:ℚ)] := by
    norm_num [sortFloat64s, insertSorted]
  have hcum : ∀ a b c d : ℕ, a < uint64Mod →
      cumulate [(1/1000, a), (1/100, b), (1/10, c), (1, d)] 0 [1/1000, 1/100, 1/10, (1:ℚ)] =
        [(1/1000, a), (1/100, (a + b) % uint64Mod), (1/10, (a + b + c) % uint64Mod),
         (1, (a + b + c + d) % uint64Mod)] := by
    intro a b c d ha
    norm_num [cumulate, lookupBucket, uint64Mod] at ha ⊢
    try omega
  have hcount : histCount m =
      (toUint64 q1 + toUint64 q2 + toUint64 q3 + toUint64 q4 + toUint64 q5) % uint64Mod := by
    simp [histCount, rTimeBucketMap, h1, h2, h3, h4, h5, uint64Mod]
    try omega
  rw [makeRecursorRTimeHistogram, hfind]
  simp only [hlin, List.map_cons, List.map_nil, hsort, hcum _ _ _ _ (toUint64_lt q1), hcount]

/-! ### Frame and monotonicity lemmas for the gauge pass -/

theorem processGauge_up (d : gaugeDefinition) (m : StatsMap) (s : ExporterState) :
    (processGauge d m s).up = s.up := by
  unfold processGauge
  cases lookupStat m d.key <;> simp

theorem processGauge_totalScrapes (d : gaugeDefinition) (m : StatsMap) (s : ExporterState) :
    (processGauge d m s).totalScrapes = s.totalScrapes := by
  unfold processGauge
  cases lookupStat m d.key <;> simp

theorem processGauge_failures_le (d : gaugeDefinition) (m : StatsMap) (s : ExporterState) :
    s.jsonParseFailures ≤ (processGauge d m s).jsonParseFailures := by
  unfold processGauge
  cases lookupStat m d.key <;> simp

theorem processGauge_failures_absent (d : gaugeDefinition) (m : StatsMap) (s : ExporterState)
    (h : lookupStat m d.key = none) :
    (processGauge d m s).jsonParseFailures = s.jsonParseFailures + 1 := by
  unfold processGauge
  rw [h]

theorem processGauge_lookupGauge_frame (d : gaugeDefinition) (m : StatsMap) (s : ExporterState)
    (i : Nat) (h : d.id ≠ i ∨ lookupStat m d.key = none) :
    lookupGauge (processGauge d m s).gaugeValues i = lookupGauge s.gaugeValues i := by
  unfold processGauge
  rcases h with h | h
  · cases hk : lookupStat m d.key <;> simp [lookupGauge_setGauge_ne _ _ _ _ h]
  · rw [h]

theorem processGauges_up (defs : List gaugeDefinition) (m : StatsMap) (s : ExporterState) :
    (processGauges defs m s).up = s.up := by
  induction defs generalizing s with
  | nil => rfl
  | cons d rest ih => rw [processGauges, ih, processGauge_up]

theorem processGauges_totalScrapes (defs : List gaugeDefinition) (m : StatsMap)
    (s : ExporterState) : (processGauges defs m s).totalScrapes = s.totalScrapes := by
  induction defs generalizing s with
  | nil => rfl
  | cons d rest ih => rw [processGauges, ih, processGauge_totalScrapes]

theorem processGauges_failures_le (defs : List gaugeDefinition) (m : StatsMap)
    (s : ExporterState) : s.jsonParseFailures ≤ (processGauges defs m s).jsonParseFailures := by
  induction defs generalizing s with
  | nil => exact Nat.le_refl _
  | cons d rest ih =>
    rw [processGauges]
    exact Nat.le_trans (processGauge_failures_le d m s) (ih _)

theorem processGauges_failures_of_absent (defs : List gaugeDefinition) (m : StatsMap)
    (s : ExporterState) (d : gaugeDefinition) (hmem : d ∈ defs)
    (habs : lookupStat m d.key = none) :
    s.jsonParseFailures + 1 ≤ (processGauges defs m s).jsonParseFailures := by
  induction defs generalizing s with
  | nil => cases hmem
  | cons g rest ih =>
    rw [processGauges]
    rcases List.mem_cons.mp hmem with h | h
    · subst h
      calc s.jsonParseFailures + 1 = (processGauge d m s).jsonParseFailures := by
            rw [processGauge_failures_absent d m s habs]
        _ ≤ _ := processGauges_failures_le rest m _
    · exact Nat.le_trans (Nat.add_le_add_right (processGauge_failures_le g m s) 1) (ih _ h)

theorem processGauges_lookupGauge_frame (defs : List gaugeDefinition) (m : StatsMap)
    (s : ExporterState) (i : Nat)
    (h : ∀ g ∈ defs, g.id ≠ i ∨ lookupStat m g.key = none) :
    lookupGauge (processGauges defs m s).gaugeValues i = lookupGauge s.gaugeValues i := by
  induction defs generalizing s with
  | nil => rfl
  | cons g rest ih =>
    rw [processGauges, ih _ (fun g' hg' => h g' (List.mem_cons_of_mem g hg')),
      processGauge_lookupGauge_frame g m s i (h g (List.mem_cons_self g rest))]

/-- The value written to the persistent gauge of a definition `d` that is
the unique definition carrying its id, when its source key is present:
the raw value, divided by 1000000 exactly when the key ends in `latency`. -/
theorem processGauges_lookupGauge_of_unique (defs : List gaugeDefinition)
    (d : gaugeDefinition) (m : StatsMap) (s : ExporterState) (v : ℚ)
    (hu : defs.filter (fun g => g.id == d.id) = [d])
    (hp : lookupStat m d.key = some v) :
    lookupGauge (processGauges defs m s).gaugeValues d.id =
      some (if hasSuffix d.key "latency" then v / 1000000 else v) := by
  induction defs generalizing s with
  | nil => simp [List.filter] at hu
  | cons g rest ih =>
    by_cases hg : g.id = d.id
    · rw [List.filter_cons_of_pos (by simpa using hg)] at hu
      have he : g = d := (List.cons_eq_cons.mp hu).1
      have hrest : rest.filter (fun g => g.id == d.id) = [] := (List.cons_eq_cons.mp hu).2
      rw [processGauges,
        processGauges_lookupGauge_frame rest m _ d.id
          (fun g' hg' => Or.inl (fun hs => by
            have hmem : g' ∈ rest.filter (fun g => g.id == d.id) :=
              List.mem_filter.mpr ⟨hg', by simpa using hs⟩
            simp [hrest] at hmem)),
        he]
      unfold processGauge
      rw [hp]
      exact lookupGauge_setGauge_self _ _ _
    · rw [List.filter_cons_of_neg (by simpa using hg)] at hu
      rw [processGauges]
      exact ih _ hu

/-! ### The counter pass: emitted series and failure accounting -/

theorem processCounterEntries_snd (defId : Nat) (entries : List (String × String))
    (m : StatsMap) (s : ExporterState) :
    (processCounterEntries defId entries m s).2 =
      (entries.filter (fun p => (lookupStat m p.1).isSome)).map
        (fun p => Metric.counterMetric defId p.2 ((lookupStat m p.1).getD 0)) := by
  induction entries generalizing s with
  | nil => rfl
  | cons p rest ih =>
    obtain ⟨key, label⟩ := p
    rw [processCounterEntries]
    cases hk : lookupStat m key with
    | none => simp [hk, ih]
    | some v => simp [hk, ih]

theorem processCounterEntries_failures (defId : Nat) (entries : List (String × String))
    (m : StatsMap) (s : ExporterState) :
    (processCounterEntries defId entries m s).1.jsonParseFailures =
      s.jsonParseFailures + (entries.filter (fun p => (lookupStat m p.1).isNone)).length := by
  induction entries generalizing s with
  | nil => rfl
  | cons p rest ih =>
    obtain ⟨key, label⟩ := p
    rw [processCounterEntries]
    cases hk : lookupStat m key with
    | none => simp [hk, ih]; omega
    | some v => simp [hk, ih]

theorem processCounterEntries_up (defId : Nat) (entries : List (String × String))
    (m : StatsMap) (s : ExporterState) :
    (processCounterEntries defId entries m s).1.up = s.up := by
  induction entries generalizing s with
  | nil => rfl
  | cons p rest ih =>
    obtain ⟨key, label⟩ := p
    rw [processCounterEntries]
    cases hk : lookupStat m key with
    | none => simp [ih]
    | some v => simp [ih]

theorem processCounterEntries_totalScrapes (defId : Nat) (entries : List (String × String))
    (m : StatsMap) (s : ExporterState) :
    (processCounterEntries defId entries m s).1.totalScrapes = s.totalScrapes := by
  induction entries generalizing s with
  | nil => rfl
  | cons p rest ih =>
    obtain ⟨key, label⟩ := p
    rw [processCounterEntries]
    cases hk : lookupStat m key with
    | none => simp [ih]
    | some v => simp [ih]

theorem processCounterEntries_gaugeValues (defId : Nat) (entries : List (String × String))
    (m : StatsMap) (s : ExporterState) :
    (processCounterEntries defId entries m s).1.gaugeValues = s.gaugeValues := by
  induction entries generalizing s with
  | nil => rfl
  | cons p rest ih =>
    obtain ⟨key, label⟩ := p
    rw [processCounterEntries]
    cases hk : lookupStat m key with
    | none => simp [ih]
    | some v => simp [ih]

theorem processCounters_failures (defs : List counterDefinition) (m : StatsMap)
    (s : ExporterState) :
    (processCounters defs m s).1.jsonParseFailures =
      s.jsonParseFailures +
        (defs.map
          (fun d => (d.labelMap.filter (fun p => (lookupStat m p.1).isNone)).length)).sum := by
  induction defs generalizing s with
  | nil => rfl
  | cons d rest ih =>
    rw [processCounters]
    simp only [List.map_cons, List.sum_cons]
    rw [ih, processCounterDef, processCounterEntries_failures]
    omega

theorem processCounters_up (defs : List counterDefinition) (m : StatsMap) (s : ExporterState) :
    (processCounters defs m s).1.up = s.up := by
  induction defs generalizing s with
  | nil => rfl
  | cons d rest ih =>
    rw [processCounters]
    simp only
    rw [ih, processCounterDef, processCounterEntries_up]

theorem processCounters_totalScrapes (defs : List counterDefinition) (m : StatsMap)
    (s : ExporterState) :
    (processCounters defs m s).1.totalScrapes = s.totalScrapes := by
  induction defs generalizing s with
  | nil => rfl
  | cons d rest ih =>
    rw [processCounters]
    simp only
    rw [ih, processCounterDef, processCounterEntries_totalScrapes]

theorem processCounters_gaugeValues (defs : List counterDefinition) (m : StatsMap)
    (s : ExporterState) :
    (processCounters defs m s).1.gaugeValues = s.gaugeValues := by
  induction defs generalizing s with
  | nil => rfl
  | cons d rest ih =>
    rw [processCounters]
    simp only
    rw [ih, processCounterDef, processCounterEntries_gaugeValues]

theorem processCounterEntries_no_histogram (defId : Nat) (entries : List (String × String))
    (m : StatsMap) (s : ExporterState) :
    (processCounterEntries defId entries m s).2.filter Metric.isHistogram = [] := by
  rw [processCounterEntries_snd]
  induction entries.filter (fun p => (lookupStat m p.1).isSome) with
  | nil => rfl
  | cons p rest ih => simpa [Metric.isHistogram] using ih

theorem processCounters_no_histogram (defs : List counterDefinition) (m : StatsMap)
    (s : ExporterState) :
    (processCounters defs m s).2.filter Metric.isHistogram = [] := by
  induction defs generalizing s with
  | nil => rfl
  | cons d rest ih =>
    rw [processCounters]
    simp only [List.filter_append]
    rw [ih, processCounterDef, processCounterEntries_no_histogram, List.append_nil]

/-! ### Decomposition of a collection cycle -/

theorem findMissingKeyIn_of_mem (m : StatsMap) (keys : List String) (k : String)
    (hk : k ∈ keys) (h : lookupStat m k = none) :
    ∃ k', findMissingKeyIn m keys = some k' := by
  induction keys with
  | nil => cases hk
  | cons k0 ks ih =>
    by_cases h0 : (lookupStat m k0).isNone
    · exact ⟨k0, by simp [findMissingKeyIn, h0]⟩
    · rcases List.mem_cons.mp hk with rfl | hk'
      · exact absurd (by simp [h]) h0
      · obtain ⟨k', hk'⟩ := ih hk'
        exact ⟨k', by simp [findMissingKeyIn, h0, hk']⟩

theorem makeRecursorRTimeHistogram_error_of_missing (m : StatsMap) (k : String)
    (hk : k ∈ rTimeBucketMap.map Prod.fst) (h : lookupStat m k = none) :
    ∃ e, makeRecursorRTimeHistogram m = .error e := by
  obtain ⟨k', hk'⟩ := findMissingKeyIn_of_mem m _ k hk h
  exact ⟨_, by rw [makeRecursorRTimeHistogram, hk']⟩

theorem collectMetrics_fst (st : String) (gd : List gaugeDefinition)
    (cd : List counterDefinition) (stats : List StatsEntry) (s : ExporterState)
    (h : buildStatsMap stats ≠ []) :
    (collectMetrics st gd cd stats s).1 =
      (processCounters cd (buildStatsMap stats) (processGauges gd (buildStatsMap stats) s)).1 := by
  have hie : (buildStatsMap stats).isEmpty = false := by
    simpa [List.isEmpty_iff] using h
  rw [collectMetrics]
  simp only [hie, Bool.false_eq_true, if_false]
  by_cases hst : st = "recursor"
  · simp only [hst, if_true, if_pos rfl]
    cases makeRecursorRTimeHistogram (buildStatsMap stats) <;> rfl
  · simp only [if_neg hst]

theorem collectMetrics_snd_hist_error (gd : List gaugeDefinition)
    (cd : List counterDefinition) (stats : List StatsEntry) (s : ExporterState)
    (hne : buildStatsMap stats ≠ []) (e : String)
    (he : makeRecursorRTimeHistogram (buildStatsMap stats) = .error e) :
    (collectMetrics "recursor" gd cd stats s).2 =
      (processCounters cd (buildStatsMap stats) (processGauges gd (buildStatsMap stats) s)).2 := by
  have hie : (buildStatsMap stats).isEmpty = false := by
    simpa [List.isEmpty_iff] using hne
  rw [collectMetrics]
  simp only [hie, Bool.false_eq_true, if_false, if_pos rfl, he, if_true]

theorem scrape_ok_eq (data : List StatsEntry) (s : ExporterState) :
    scrape (.ok data) s =
      (⟨1, s.totalScrapes + 1, s.jsonParseFailures, s.gaugeValues⟩, data) := rfl

theorem Collect_ok_fst (st : String) (gd : List gaugeDefinition)
    (cd : List counterDefinition) (data : List StatsEntry) (s : ExporterState)
    (h : buildStatsMap data ≠ []) :
    (Collect st gd cd (.ok data) s).1 =
      (processCounters cd (buildStatsMap data)
        (processGauges gd (buildStatsMap data)
          ⟨1, s.totalScrapes + 1, s.jsonParseFailures, s.gaugeValues⟩)).1 := by
  show (collectMetrics st gd cd data
      ⟨1, s.totalScrapes + 1, s.jsonParseFailures, s.gaugeValues⟩).1 = _
  exact collectMetrics_fst st gd cd data _ h

theorem Collect_ok_snd (st : String) (gd : List gaugeDefinition)
    (cd : List counterDefinition) (data : List StatsEntry) (s : ExporterState) :
    (Collect st gd cd (.ok data) s).2 =
      Metric.upMetric (Collect st gd cd (.ok data) s).1.up ::
      Metric.totalScrapesMetric (Collect st gd cd (.ok data) s).1.totalScrapes ::
      Metric.jsonParseFailuresMetric (Collect st gd cd (.ok data) s).1.jsonParseFailures ::
      (collectMetrics st gd cd data
        ⟨1, s.totalScrapes + 1, s.jsonParseFailures, s.gaugeValues⟩).2 := rfl

/-! ### Claim theorems -/

/-- C1: a cycle whose statistics fetch or JSON decode fails emits exactly
the three housekeeping metrics (`up`, `totalScrapes`, `jsonParseFailures`)
and no gauge, counter or histogram metric; it sets `up` to 0, increments
`jsonParseFailures` by exactly 1 and `totalScrapes` by exactly 1, and
leaves the persistent gauges untouched. -/
theorem collect_fetch_failure_housekeeping_only (serverType : String)
    (gaugeDefs : List gaugeDefinition) (counterDefs : List counterDefinition)
    (msg : String) (s : ExporterState) :
    Collect serverType gaugeDefs counterDefs (.error msg) s =
      (⟨0, s.totalScrapes + 1, s.jsonParseFailures + 1, s.gaugeValues⟩,
       [Metric.upMetric 0, Metric.totalScrapesMetric (s.totalScrapes + 1),
        Metric.jsonParseFailuresMetric (s.jsonParseFailures + 1)]) := rfl

/-- C3: a cycle whose fetch succeeds with an empty statistics list sets
`up` to 1 and terminates early, emitting exactly the three housekeeping
metrics and no gauge, counter or histogram metric. -/
theorem collect_empty_snapshot_housekeeping_only (serverType : String)
    (gaugeDefs : List gaugeDefinition) (counterDefs : List counterDefinition)
    (s : ExporterState) :
    Collect serverType gaugeDefs counterDefs (.ok []) s =
      (⟨1, s.totalScrapes + 1, s.jsonParseFailures, s.gaugeValues⟩,
       [Metric.upMetric 1, Metric.totalScrapesMetric (s.totalScrapes + 1),
        Metric.jsonParseFailuresMetric s.jsonParseFailures]) := rfl

/-- C2, counterexample to the claim as stated: with all five raw counts
equal to 2^63 (in range for `uint64`, exactly representable in float64)
the `uint64` count and cumulative sums wrap modulo 2^64, the cumulative
buckets come out as 2^63, 0, 2^63, 0 — not non-decreasing — and the total
count is 2^63, not the sum 5·2^63 of the five raw counts. -/
theorem hist_cumulative_wrap_counterexample :
    makeRecursorRTimeHistogram
        [("answers0-1", ((9223372036854775808:ℕ) : ℚ)),
         ("answers1-10", ((9223372036854775808:ℕ) : ℚ)),
         ("answers10-100", ((9223372036854775808:ℕ) : ℚ)),
         ("answers100-1000", ((9223372036854775808:ℕ) : ℚ)),
         ("answers-slow", ((9223372036854775808:ℕ) : ℚ))] =
      .ok { count := 9223372036854775808, sum := 0,
            buckets := [(1/1000, 9223372036854775808), (1/100, 0),
                        (1/10, 9223372036854775808), (1, 0)] } ∧
    ¬ List.Chain' (· ≤ ·)
        [(9223372036854775808:ℕ), 0, 9223372036854775808, 0] ∧
    (9223372036854775808:ℕ) ≠ 9223372036854775808 + 9223372036854775808 +
      9223372036854775808 + 9223372036854775808 + 9223372036854775808 := by
  refine ⟨?_, ?_, by omega⟩
  · rw [makeRecursorRTimeHistogram_eval _ ((9223372036854775808:ℕ) : ℚ)
      ((9223372036854775808:ℕ) : ℚ) ((9223372036854775808:ℕ) : ℚ)
      ((9223372036854775808:ℕ) : ℚ) ((9223372036854775808:ℕ) : ℚ)
      (by decide) (by decide) (by decide) (by decide) (by decide)]
    norm_num [toUint64, uint64Mod]
    try omega
  · simp [List.chain'_cons]
    try omega

/-- C2, amended: on a snapshot carrying all five histogram raw keys with
non-negative integer values whose total stays below 2^64 (so the `uint64`
accumulators do not wrap), the histogram builder succeeds, its cumulative
bucket counts over the ascending finite thresholds are non-decreasing and
bounded by the total count, and the total count (the final, implicit
`+Inf` cumulative bucket) is the sum of all five raw counts, the
unbounded `answers-slow` bucket included. -/
theorem hist_cumulative_monotone_and_total (m : StatsMap) (n1 n2 n3 n4 n5 : ℕ)
    (h1 : lookupStat m "answers0-1" = some (n1 : ℚ))
    (h2 : lookupStat m "answers1-10" = some (n2 : ℚ))
    (h3 : lookupStat m "answers10-100" = some (n3 : ℚ))
    (h4 : lookupStat m "answers100-1000" = some (n4 : ℚ))
    (h5 : lookupStat m "answers-slow" = some (n5 : ℚ))
    (hsum : n1 + n2 + n3 + n4 + n5 < uint64Mod) :
    ∃ h : ConstHistogram, makeRecursorRTimeHistogram m = .ok h ∧
      List.Chain' (· ≤ ·) (h.buckets.map Prod.snd) ∧
      (∀ c ∈ h.buckets.map Prod.snd, c ≤ h.count) ∧
      h.count = n1 + n2 + n3 + n4 + n5 := by
  rw [uint64Mod] at hsum
  refine ⟨_, makeRecursorRTimeHistogram_eval m _ _ _ _ _ h1 h2 h3 h4 h5, ?_, ?_, ?_⟩ <;>
    (simp [toUint64_natCast, List.chain'_cons, uint64Mod]; try omega)

/-- Witness for C2 at a concrete snapshot. -/
theorem hist_cumulative_monotone_and_total_witness :
    (lookupStat [("answers0-1", ((10:ℕ) : ℚ)), ("answers1-10", ((5:ℕ) : ℚ)),
        ("answers10-100", ((0:ℕ) : ℚ)), ("answers100-1000", ((0:ℕ) : ℚ)),
        ("answers-slow", ((2:ℕ) : ℚ))] "answers0-1" = some ((10:ℕ) : ℚ) ∧
     10 + 5 + 0 + 0 + 2 < uint64Mod) ∧
    (∃ h : ConstHistogram,
      makeRecursorRTimeHistogram [("answers0-1", ((10:ℕ) : ℚ)), ("answers1-10", ((5:ℕ) : ℚ)),
        ("answers10-100", ((0:ℕ) : ℚ)), ("answers100-1000", ((0:ℕ) : ℚ)),
        ("answers-slow", ((2:ℕ) : ℚ))] = .ok h ∧
      List.Chain' (· ≤ ·) (h.buckets.map Prod.snd) ∧
      (∀ c ∈ h.buckets.map Prod.snd, c ≤ h.count) ∧
      h.count = 10 + 5 + 0 + 0 + 2) :=
  ⟨⟨by decide, by decide⟩,
   hist_cumulative_monotone_and_total _ 10 5 0 0 2 (by decide) (by decide) (by decide)
     (by decide) (by decide) (by decide)⟩

/-- C8: the concrete snapshot of the end-to-end scenario yields cumulative
buckets 0.001→10, 0.01→15, 0.1→15, 1→15 and total count 17. -/
theorem hist_concrete_scenario :
    makeRecursorRTimeHistogram (buildStatsMap
      [⟨"answers0-1", "counter", 10⟩, ⟨"answers1-10", "counter", 5⟩,
       ⟨"answers10-100", "counter", 0⟩, ⟨"answers100-1000", "counter", 0⟩,
       ⟨"answers-slow", "counter", 2⟩]) =
      .ok { count := 17, sum := 0,
            buckets := [(1/1000, 10), (1/100, 15), (1/10, 15), (1, 15)] } := by
  rw [makeRecursorRTimeHistogram_eval _ 10 5 0 0 2 (by decide) (by decide) (by decide)
    (by decide) (by decide)]
  norm_num [toUint64, uint64Mod]
  omega

/-- C6: for a gauge definition that is the unique carrier of its id, when
its source key is present the value written to its persistent gauge is the
raw value divided by 1,000,000 exactly when the key name ends in
`latency`, and the unconverted raw value otherwise. -/
theorem gauge_latency_unit_conversion (defs : List gaugeDefinition) (d : gaugeDefinition)
    (m : StatsMap) (s : ExporterState) (v : ℚ)
    (hu : defs.filter (fun g => g.id == d.id) = [d])
    (hp : lookupStat m d.key = some v) :
    lookupGauge (processGauges defs m s).gaugeValues d.id =
      some (if hasSuffix d.key "latency" then v / 1000000 else v) :=
  processGauges_lookupGauge_of_unique defs d m s v hu hp

/-- Witness for C6: the recursor `qa_latency` gauge (key ending in
`latency`) and the `concurrent_queries` gauge (key not ending in
`latency`), each present in a concrete snapshot. -/
theorem gauge_latency_unit_conversion_witness :
    (recursorGaugeDefs.filter (fun g => g.id == 1) =
      [⟨1, "latency_average_seconds",
        "Exponential moving average of question-to-answer latency.", "qa_latency"⟩] ∧
     lookupStat [("qa_latency", (5:ℚ)), ("concurrent_queries", (7:ℚ))] "qa_latency" = some 5 ∧
     lookupGauge (processGauges recursorGaugeDefs
         [("qa_latency", (5:ℚ)), ("concurrent_queries", (7:ℚ))] ⟨0, 0, 0, []⟩).gaugeValues 1 =
       some (if hasSuffix "qa_latency" "latency" then 5 / 1000000 else 5)) ∧
    (recursorGaugeDefs.filter (fun g => g.id == 2) =
      [⟨2, "concurrent_queries", "Number of concurrent queries.", "concurrent_queries"⟩] ∧
     lookupStat [("qa_latency", (5:ℚ)), ("concurrent_queries", (7:ℚ))] "concurrent_queries" =
       some 7 ∧
     lookupGauge (processGauges recursorGaugeDefs
         [("qa_latency", (5:ℚ)), ("concurrent_queries", (7:ℚ))] ⟨0, 0, 0, []⟩).gaugeValues 2 =
       some (if hasSuffix "concurrent_queries" "latency" then 7 / 1000000 else 7)) :=
  ⟨⟨by decide, by decide,
    gauge_latency_unit_conversion recursorGaugeDefs
      ⟨1, "latency_average_seconds",
        "Exponential moving average of question-to-answer latency.", "qa_latency"⟩
      [("qa_latency", (5:ℚ)), ("concurrent_queries", (7:ℚ))] ⟨0, 0, 0, []⟩ 5
      (by decide) (by decide)⟩,
   ⟨by decide, by decide,
    gauge_latency_unit_conversion recursorGaugeDefs
      ⟨2, "concurrent_queries", "Number of concurrent queries.", "concurrent_queries"⟩
      [("qa_latency", (5:ℚ)), ("concurrent_queries", (7:ℚ))] ⟨0, 0, 0, []⟩ 7
      (by decide) (by decide)⟩⟩

/-- C7: every counter definition emits exactly one series per labelMap
entry whose raw key is present (tagged with the entry's label and
carrying the raw value), and each absent raw key adds exactly 1 to
`jsonParseFailures` without stopping the remaining entries; concretely,
the recursor `incoming_queries_total` definition on a snapshot with
`questions = 42` and no `tcp-questions` emits exactly one series labelled
`udp` with value 42 and increments `jsonParseFailures` by 1. -/
theorem counter_series_per_present_key :
    (∀ (d : counterDefinition) (m : StatsMap) (s : ExporterState),
       (processCounterDef d m s).2 =
         (d.labelMap.filter (fun p => (lookupStat m p.1).isSome)).map
           (fun p => Metric.counterMetric d.id p.2 ((lookupStat m p.1).getD 0)) ∧
       (processCounterDef d m s).1.jsonParseFailures =
         s.jsonParseFailures +
           (d.labelMap.filter (fun p => (lookupStat m p.1).isNone)).length) ∧
    (∀ s : ExporterState,
       processCounterDef (recursorCounterDefs.get ⟨0, by decide⟩)
         (buildStatsMap [⟨"questions", "counter", 42⟩]) s =
         ({ s with jsonParseFailures := s.jsonParseFailures + 1 },
          [Metric.counterMetric 1 "udp" 42])) := by
  constructor
  · intro d m s
    exact ⟨processCounterEntries_snd _ _ _ _, processCounterEntries_failures _ _ _ _⟩
  · intro s
    rfl

/-- C4: when a recursor cycle's snapshot is non-empty but lacks one of the
five histogram raw keys, the histogram builder fails with a missing-key
error, no histogram metric is emitted that cycle, and the cycle is not
aborted: its final state and its emission are exactly those of the gauge
and counter passes (housekeeping plus the counter series). -/
theorem hist_missing_key_skips_histogram_only (stats : List StatsEntry) (s : ExporterState)
    (k : String) (hne : buildStatsMap stats ≠ [])
    (hk : k ∈ rTimeBucketMap.map Prod.fst)
    (hmiss : lookupStat (buildStatsMap stats) k = none) :
    (∃ e, makeRecursorRTimeHistogram (buildStatsMap stats) = .error e) ∧
    (Collect "recursor" recursorGaugeDefs recursorCounterDefs (.ok stats) s).2.filter
        Metric.isHistogram = [] ∧
    (Collect "recursor" recursorGaugeDefs recursorCounterDefs (.ok stats) s).1 =
      (processCounters recursorCounterDefs (buildStatsMap stats)
        (processGauges recursorGaugeDefs (buildStatsMap stats)
          ⟨1, s.totalScrapes + 1, s.jsonParseFailures, s.gaugeValues⟩)).1 ∧
    (Collect "recursor" recursorGaugeDefs recursorCounterDefs (.ok stats) s).2 =
      Metric.upMetric
          (Collect "recursor" recursorGaugeDefs recursorCounterDefs (.ok stats) s).1.up ::
      Metric.totalScrapesMetric
          (Collect "recursor" recursorGaugeDefs recursorCounterDefs (.ok stats) s).1.totalScrapes ::
      Metric.jsonParseFailuresMetric
          (Collect "recursor" recursorGaugeDefs recursorCounterDefs
            (.ok stats) s).1.jsonParseFailures ::
      (processCounters recursorCounterDefs (buildStatsMap stats)
        (processGauges recursorGaugeDefs (buildStatsMap stats)
          ⟨1, s.totalScrapes + 1, s.jsonParseFailures, s.gaugeValues⟩)).2 := by
  obtain ⟨e, he⟩ := makeRecursorRTimeHistogram_error_of_missing (buildStatsMap stats) k hk hmiss
  have hsnd : (Collect "recursor" recursorGaugeDefs recursorCounterDefs (.ok stats) s).2 =
      Metric.upMetric
          (Collect "recursor" recursorGaugeDefs recursorCounterDefs (.ok stats) s).1.up ::
      Metric.totalScrapesMetric
          (Collect "recursor" recursorGaugeDefs recursorCounterDefs (.ok stats) s).1.totalScrapes ::
      Metric.jsonParseFailuresMetric
          (Collect "recursor" recursorGaugeDefs recursorCounterDefs
            (.ok stats) s).1.jsonParseFailures ::
      (processCounters recursorCounterDefs (buildStatsMap stats)
        (processGauges recursorGaugeDefs (buildStatsMap stats)
          ⟨1, s.totalScrapes + 1, s.jsonParseFailures, s.gaugeValues⟩)).2 := by
    rw [Collect_ok_snd, collectMetrics_snd_hist_error _ _ _ _ hne e he]
  refine ⟨⟨e, he⟩, ?_, Collect_ok_fst _ _ _ _ _ hne, hsnd⟩
  rw [hsnd]
  simp only [List.filter_cons, Metric.isHistogram, Bool.false_eq_true, if_false,
    processCounters_no_histogram]

/-- Witness for C4 at a concrete non-empty snapshot missing `answers0-1`. -/
theorem hist_missing_key_skips_histogram_only_witness :
    (buildStatsMap [⟨"cache-hits", "counter", 3⟩] ≠ [] ∧
     "answers0-1" ∈ rTimeBucketMap.map Prod.fst ∧
     lookupStat (buildStatsMap [⟨"cache-hits", "counter", 3⟩]) "answers0-1" = none) ∧
    ((∃ e, makeRecursorRTimeHistogram (buildStatsMap [⟨"cache-hits", "counter", 3⟩]) =
        .error e) ∧
     (Collect "recursor" recursorGaugeDefs recursorCounterDefs
        (.ok [⟨"cache-hits", "counter", 3⟩]) ⟨0, 0, 0, []⟩).2.filter Metric.isHistogram = [] ∧
     (Collect "recursor" recursorGaugeDefs recursorCounterDefs
        (.ok [⟨"cache-hits", "counter", 3⟩]) ⟨0, 0, 0, []⟩).1 =
       (processCounters recursorCounterDefs (buildStatsMap [⟨"cache-hits", "counter", 3⟩])
         (processGauges recursorGaugeDefs (buildStatsMap [⟨"cache-hits", "counter", 3⟩])
           ⟨1, 0 + 1, 0, []⟩)).1 ∧
     (Collect "recursor" recursorGaugeDefs recursorCounterDefs
        (.ok [⟨"cache-hits", "counter", 3⟩]) ⟨0, 0, 0, []⟩).2 =
       Metric.upMetric (Collect "recursor" recursorGaugeDefs recursorCounterDefs
         (.ok [⟨"cache-hits", "counter", 3⟩]) ⟨0, 0, 0, []⟩).1.up ::
       Metric.totalScrapesMetric (Collect "recursor" recursorGaugeDefs recursorCounterDefs
         (.ok [⟨"cache-hits", "counter", 3⟩]) ⟨0, 0, 0, []⟩).1.totalScrapes ::
       Metric.jsonParseFailuresMetric (Collect "recursor" recursorGaugeDefs recursorCounterDefs
         (.ok [⟨"cache-hits", "counter", 3⟩]) ⟨0, 0, 0, []⟩).1.jsonParseFailures ::
       (processCounters recursorCounterDefs (buildStatsMap [⟨"cache-hits", "counter", 3⟩])
         (processGauges recursorGaugeDefs (buildStatsMap [⟨"cache-hits", "counter", 3⟩])
           ⟨1, 0 + 1, 0, []⟩)).2) :=
  ⟨⟨by decide, by decide, by decide⟩,
   hist_missing_key_skips_histogram_only [⟨"cache-hits", "counter", 3⟩] ⟨0, 0, 0, []⟩
     "answers0-1" (by decide) (by decide) (by decide)⟩

/-- C5: in a recursor cycle on a non-empty snapshot lacking a raw key
expected by the histogram, `jsonParseFailures` is incremented (each of the
five histogram keys is likewise an `answers_rtime_total` counter key, so
the absence is counted the same way as an absent counter key). -/
theorem hist_missing_key_counts_parse_failure (stats : List StatsEntry) (s : ExporterState)
    (k : String) (hne : buildStatsMap stats ≠ [])
    (hk : k ∈ rTimeBucketMap.map Prod.fst)
    (hmiss : lookupStat (buildStatsMap stats) k = none) :
    s.jsonParseFailures + 1 ≤
      (Collect "recursor" recursorGaugeDefs recursorCounterDefs
        (.ok stats) s).1.jsonParseFailures := by
  have hk' : k ∈ rTimeLabelMap.map Prod.fst := by
    simpa [rTimeLabelMap, rTimeBucketMap] using hk
  obtain ⟨p, hpmem, hpk⟩ := List.mem_map.mp hk'
  have hp1 : (lookupStat (buildStatsMap stats) p.1).isNone = true := by
    rw [hpk, hmiss]; rfl
  have hfilter : 1 ≤ (rTimeLabelMap.filter
      (fun q => (lookupStat (buildStatsMap stats) q.1).isNone)).length :=
    List.length_pos.mpr (List.ne_nil_of_mem (List.mem_filter.mpr ⟨hpmem, hp1⟩))
  have hd5 : (⟨5, "answers_rtime_total",
      "Total number of answers grouped by response time slots.", "timeslot",
      rTimeLabelMap⟩ : counterDefinition) ∈ recursorCounterDefs := by
    simp [recursorCounterDefs]
  have hsum : (rTimeLabelMap.filter
      (fun q => (lookupStat (buildStatsMap stats) q.1).isNone)).length ≤
      (recursorCounterDefs.map
        (fun d => (d.labelMap.filter
          (fun p => (lookupStat (buildStatsMap stats) p.1).isNone)).length)).sum :=
    List.single_le_sum (fun _ _ => Nat.zero_le _) _ (List.mem_map_of_mem _ hd5)
  have hmono := processGauges_failures_le recursorGaugeDefs (buildStatsMap stats)
    ⟨1, s.totalScrapes + 1, s.jsonParseFailures, s.gaugeValues⟩
  rw [Collect_ok_fst _ _ _ _ _ hne, processCounters_failures]
  simp only at hmono
  omega

/-- Witness for C5 at a concrete non-empty snapshot missing `answers0-1`. -/
theorem hist_missing_key_counts_parse_failure_witness :
    (buildStatsMap [⟨"cache-hits", "counter", 3⟩] ≠ [] ∧
     "answers0-1" ∈ rTimeBucketMap.map Prod.fst ∧
     lookupStat (buildStatsMap [⟨"cache-hits", "counter", 3⟩]) "answers0-1" = none) ∧
    0 + 1 ≤ (Collect "recursor" recursorGaugeDefs recursorCounterDefs
      (.ok [⟨"cache-hits", "counter", 3⟩]) ⟨0, 0, 0, []⟩).1.jsonParseFailures :=
  ⟨⟨by decide, by decide, by decide⟩,
   hist_missing_key_counts_parse_failure [⟨"cache-hits", "counter", 3⟩] ⟨0, 0, 0, []⟩
     "answers0-1" (by decide) (by decide) (by decide)⟩

/-- C10: for every gauge definition `d` that is the unique carrier of its
id in the active catalog, across two consecutive cycles — the first with
`d`'s source key present, the second with a non-empty snapshot lacking it
— the persistent gauge of `d` (created once and threaded through the
exporter state) is not written in the second cycle and still exposes the
value set in the first (it is not reset to zero or removed), while the
second cycle increments `jsonParseFailures`. -/
theorem gauge_retained_when_key_absent (serverType : String)
    (gaugeDefs : List gaugeDefinition) (counterDefs : List counterDefinition)
    (d : gaugeDefinition) (stats1 stats2 : List StatsEntry) (s : ExporterState) (v : ℚ)
    (hu : gaugeDefs.filter (fun g => g.id == d.id) = [d])
    (h1 : lookupStat (buildStatsMap stats1) d.key = some v)
    (h2 : lookupStat (buildStatsMap stats2) d.key = none)
    (hne2 : buildStatsMap stats2 ≠ []) :
    lookupGauge ((Collect serverType gaugeDefs counterDefs
        (.ok stats1) s).1).gaugeValues d.id =
      some (if hasSuffix d.key "latency" then v / 1000000 else v) ∧
    lookupGauge ((Collect serverType gaugeDefs counterDefs (.ok stats2)
        ((Collect serverType gaugeDefs counterDefs
          (.ok stats1) s).1)).1).gaugeValues d.id =
      some (if hasSuffix d.key "latency" then v / 1000000 else v) ∧
    ((Collect serverType gaugeDefs counterDefs
        (.ok stats1) s).1).jsonParseFailures + 1 ≤
      ((Collect serverType gaugeDefs counterDefs (.ok stats2)
        ((Collect serverType gaugeDefs counterDefs
          (.ok stats1) s).1)).1).jsonParseFailures := by
  have hne1 : buildStatsMap stats1 ≠ [] := by
    intro h
    rw [h] at h1
    simp [lookupStat] at h1
  have hdf : d ∈ gaugeDefs.filter (fun g => g.id == d.id) := by
    rw [hu]
    exact List.mem_singleton_self d
  have hd : d ∈ gaugeDefs := List.mem_of_mem_filter hdf
  have hcycle1 : lookupGauge ((Collect serverType gaugeDefs counterDefs
      (.ok stats1) s).1).gaugeValues d.id =
      some (if hasSuffix d.key "latency" then v / 1000000 else v) := by
    rw [Collect_ok_fst _ _ _ _ _ hne1, processCounters_gaugeValues]
    exact processGauges_lookupGauge_of_unique gaugeDefs d (buildStatsMap stats1)
      ⟨1, s.totalScrapes + 1, s.jsonParseFailures, s.gaugeValues⟩ v hu h1
  set s1 := (Collect serverType gaugeDefs counterDefs (.ok stats1) s).1
  have hframe : ∀ g ∈ gaugeDefs, g.id ≠ d.id ∨
      lookupStat (buildStatsMap stats2) g.key = none := by
    intro g hg
    by_cases hid : g.id = d.id
    · have hgf : g ∈ gaugeDefs.filter (fun g => g.id == d.id) :=
        List.mem_filter.mpr ⟨hg, by simpa using hid⟩
      rw [hu] at hgf
      have hgd : g = d := by simpa using hgf
      exact Or.inr (by rw [hgd]; exact h2)
    · exact Or.inl hid
  have hcycle2 : lookupGauge ((Collect serverType gaugeDefs counterDefs
      (.ok stats2) s1).1).gaugeValues d.id = lookupGauge s1.gaugeValues d.id := by
    rw [Collect_ok_fst _ _ _ _ _ hne2, processCounters_gaugeValues,
      processGauges_lookupGauge_frame _ _ _ _ hframe]
  have hfail : s1.jsonParseFailures + 1 ≤
      ((Collect serverType gaugeDefs counterDefs
        (.ok stats2) s1).1).jsonParseFailures := by
    have habs := processGauges_failures_of_absent gaugeDefs (buildStatsMap stats2)
      ⟨1, s1.totalScrapes + 1, s1.jsonParseFailures, s1.gaugeValues⟩ d hd h2
    rw [Collect_ok_fst _ _ _ _ _ hne2, processCounters_failures]
    simp only at habs
    omega
  exact ⟨hcycle1, by rw [hcycle2]; exact hcycle1, hfail⟩

/-- Witness for C10: the recursor catalog's `qa_latency` definition, with
`qa_latency = 3000000` in the first cycle and absent from the second
cycle's non-empty snapshot. -/
theorem gauge_retained_when_key_absent_witness :
    (recursorGaugeDefs.filter (fun g => g.id == 1) =
      [⟨1, "latency_average_seconds",
        "Exponential moving average of question-to-answer latency.", "qa_latency"⟩] ∧
     lookupStat (buildStatsMap [⟨"qa_latency", "gauge", 3000000⟩]) "qa_latency" =
       some 3000000 ∧
     lookupStat (buildStatsMap [⟨"cache_entries", "gauge", 7⟩]) "qa_latency" = none ∧
     buildStatsMap [⟨"cache_entries", "gauge", 7⟩] ≠ []) ∧
    (lookupGauge ((Collect "recursor" recursorGaugeDefs recursorCounterDefs
        (.ok [⟨"qa_latency", "gauge", 3000000⟩]) ⟨0, 0, 0, []⟩).1).gaugeValues 1 =
      some (if hasSuffix "qa_latency" "latency" then 3000000 / 1000000 else 3000000) ∧
     lookupGauge ((Collect "recursor" recursorGaugeDefs recursorCounterDefs
        (.ok [⟨"cache_entries", "gauge", 7⟩])
        ((Collect "recursor" recursorGaugeDefs recursorCounterDefs
          (.ok [⟨"qa_latency", "gauge", 3000000⟩]) ⟨0, 0, 0, []⟩).1)).1).gaugeValues 1 =
      some (if hasSuffix "qa_latency" "latency" then 3000000 / 1000000 else 3000000) ∧
     ((Collect "recursor" recursorGaugeDefs recursorCounterDefs
        (.ok [⟨"qa_latency", "gauge", 3000000⟩]) ⟨0, 0, 0, []⟩).1).jsonParseFailures + 1 ≤
      ((Collect "recursor" recursorGaugeDefs recursorCounterDefs
        (.ok [⟨"cache_entries", "gauge", 7⟩])
        ((Collect "recursor" recursorGaugeDefs recursorCounterDefs
          (.ok [⟨"qa_latency", "gauge", 3000000⟩]) ⟨0, 0, 0, []⟩).1)).1).jsonParseFailures) :=
  ⟨⟨by decide, by decide, by decide, by decide⟩,
   gauge_retained_when_key_absent "recursor" recursorGaugeDefs recursorCounterDefs
     ⟨1, "latency_average_seconds",
       "Exponential moving average of question-to-answer latency.", "qa_latency"⟩
     [⟨"qa_latency", "gauge", 3000000⟩] [⟨"cache_entries", "gauge", 7⟩] ⟨0, 0, 0, []⟩ 3000000
     (by decide) (by decide) (by decide) (by decide)⟩
